import Mathlib

/-!
# Verification of the document-verification backend

A shallow embedding, in Lean 4, of the core algorithms of the
document-verification backend (scoring, forensic penalty, OCR extraction
error handling, the verification runner, the Process endpoint, and the
progress pub/sub service), together with theorems settling the stated
properties of those components.

Python strings are modelled as `List Char`; Python `None` as `Option.none`;
Python floats as `ℚ` (exact rational arithmetic, the standard idealisation);
fallible Python calls as `Except`.
-/

set_option maxRecDepth 10000

/-! ## Python string primitives

Character-level helpers mirroring the CPython semantics (ASCII range, which
is all the source ever feeds them) of `str.upper`, `str.lower`, `str.strip`
and the `\s` regex class. -/

/-- ASCII uppercasing of one character, as `str.upper` acts on ASCII. -/
def upperAscii (c : Char) : Char :=
  if 'a' ≤ c ∧ c ≤ 'z' then Char.ofNat (c.toNat - 32) else c

/-- ASCII lowercasing of one character, as `str.lower` acts on ASCII. -/
def lowerAscii (c : Char) : Char :=
  if 'A' ≤ c ∧ c ≤ 'Z' then Char.ofNat (c.toNat + 32) else c

/-- The ASCII whitespace characters matched by Python's default `str.strip`
and by the regex class backslash-s. -/
def isPySpace (c : Char) : Bool :=
  c = ' ' ∨ c = '\t' ∨ c = '\n' ∨ c = '\r' ∨ c = '\x0b' ∨ c = '\x0c'

/-- `str.upper` on an ASCII string. -/
def pyUpper (l : List Char) : List Char := l.map upperAscii

/-- `str.lower` on an ASCII string. -/
def pyLower (l : List Char) : List Char := l.map lowerAscii

/-- `str.strip()`: remove whitespace from both ends. -/
def pyStrip (l : List Char) : List Char :=
  ((l.dropWhile isPySpace).reverse.dropWhile isPySpace).reverse

/-- The ten ASCII digit characters. -/
def pyDigits : List Char := ['0', '1', '2', '3', '4', '5', '6', '7', '8', '9']

/-- `str.isdigit()` for ASCII content: nonempty and all digits. -/
def pyIsDigit (l : List Char) : Bool :=
  !l.isEmpty && l.all (fun c => pyDigits.contains c)

/-- Python's `needle in haystack` substring test. -/
def listContains (hay needle : List Char) : Bool :=
  match hay with
  | [] => needle.isEmpty
  | _ :: t => needle.isPrefixOf hay || listContains t needle

/-! ## difflib.SequenceMatcher (no junk, autojunk inactive: strings < 200)

`find_longest_match` is embedded through its documented contract: among all
maximal matching blocks it returns the longest; ties are broken by the
earliest start in `a`, then the earliest start in `b`.  `ratio()` is
`2·M / (len(a)+len(b))` where `M` is the total size of the matching blocks
produced by the recursive divide-and-conquer of `get_matching_blocks`
(validated against CPython's difflib on exhaustive small inputs). -/

/-- Length of the common leading run of two lists. -/
def commonRunLen : List Char → List Char → Nat
  | x :: xs, y :: ys => if x = y then commonRunLen xs ys + 1 else 0
  | _, _ => 0

/-- The half-open segment `[lo, hi)` of a list. -/
def seg (l : List Char) (lo hi : Nat) : List Char :=
  (l.drop lo).take (hi - lo)

/-- Length of the matching run of `a` and `b` starting at `(i, j)`, confined
to `a[‥ahi)` and `b[‥bhi)`. -/
def runLen (a b : List Char) (i j ahi bhi : Nat) : Nat :=
  commonRunLen (seg a i ahi) (seg b j bhi)

/-- All candidate start pairs for a matching block inside the window. -/
def candPairs (alo ahi blo bhi : Nat) : List (Nat × Nat) :=
  (List.range' alo (ahi - alo)).flatMap
    (fun i => (List.range' blo (bhi - blo)).map (fun j => (i, j)))

/-- `find_longest_match(alo, ahi, blo, bhi)`: the longest matching block in
the window, earliest in `a` then earliest in `b` (returns `(i, j, size)`;
`(alo, blo, 0)` when there is none). -/
def findLongestMatch (a b : List Char) (alo ahi blo bhi : Nat) : Nat × Nat × Nat :=
  (candPairs alo ahi blo bhi).foldl
    (fun best p =>
      let k := runLen a b p.1 p.2 ahi bhi
      if best.2.2 < k then (p.1, p.2, k) else best)
    (alo, blo, 0)

/-- Total size of the matching blocks found by `get_matching_blocks`'s
recursion (fuelled; any fuel above the window perimeter is enough). -/
def matchedSize (a b : List Char) : Nat → Nat → Nat → Nat → Nat → Nat
  | 0, _, _, _, _ => 0
  | fuel + 1, alo, ahi, blo, bhi =>
    let t := findLongestMatch a b alo ahi blo bhi
    if t.2.2 = 0 then 0
    else
      t.2.2
        + (if alo < t.1 ∧ blo < t.2.1 then matchedSize a b fuel alo t.1 blo t.2.1 else 0)
        + (if t.1 + t.2.2 < ahi ∧ t.2.1 + t.2.2 < bhi then
            matchedSize a b fuel (t.1 + t.2.2) ahi (t.2.1 + t.2.2) bhi else 0)

/-- Total matched size over the whole of `a` and `b`. -/
def totalMatched (a b : List Char) : Nat :=
  matchedSize a b (a.length + b.length + 1) 0 a.length 0 b.length

/-- `SequenceMatcher(None, a, b).ratio()` as an exact rational. -/
def seqMatcherRatioVal (a b : List Char) : ℚ :=
  if a.length + b.length = 0 then 1
  else 2 * (totalMatched a b : ℚ) / ((a.length : ℚ) + (b.length : ℚ))

/-! ## ScoringService (src/backend/app/services/scoring_service.py) -/

/-- Python truthiness of an optional string: `None` and `""` are falsy. -/
def truthy : Option (List Char) → Bool
  | none => false
  | some [] => false
  | some (_ :: _) => true

/-- `ScoringService.calculate_similarity`: 0 on falsy input; uppercase and
strip both; 1 on equality; otherwise the `SequenceMatcher` ratio. -/
def calculate_similarity (str1 str2 : Option (List Char)) : ℚ :=
  if ¬ truthy str1 ∨ ¬ truthy str2 then 0
  else
    let s1 := pyStrip (pyUpper (str1.getD []))
    let s2 := pyStrip (pyUpper (str2.getD []))
    if s1 = s2 then 1
    else seqMatcherRatioVal s1 s2

/-- The regex `^([A-Z]{2}\d{6}|\d{8})$` used to validate a normalized
company number. -/
def chPattern (l : List Char) : Bool :=
  l.length = 8 &&
    (((l.take 2).all (fun c => 'A' ≤ c ∧ c ≤ 'Z')
        && (l.drop 2).all (fun c => pyDigits.contains c))
     || l.all (fun c => pyDigits.contains c))

/-- `ScoringService.normalize_company_number`: uppercase, drop whitespace
and dashes, left-pad all-digit 6- or 7-digit forms to 8 digits; return the
original when the length is an invalid all-digit length or the result fails
the validation regex. -/
def normalize_company_number (company_number : Option (List Char)) : Option (List Char) :=
  match company_number with
  | none => none
  | some s =>
    if s.isEmpty then none
    else
      let n0 := (pyUpper s).filter (fun c => !(isPySpace c || c = '-'))
      -- the source's `else: return company_number` inside the all-digit
      -- branch (invalid length), factored out as an early case
      if pyIsDigit n0 ∧ n0.length ≠ 6 ∧ n0.length ≠ 7 ∧ n0.length ≠ 8 then some s
      else
        let n1 :=
          if pyIsDigit n0 then
            if n0.length = 6 then '0' :: '0' :: n0
            else if n0.length = 7 then '0' :: n0
            else n0
          else n0
        if chPattern n1 then some n1 else some s

/-- `ScoringService.calculate_registry_score`: 0 on an absent number;
otherwise normalize both and score 40 on equality, similarity·40 otherwise. -/
def calculate_registry_score
    (ocr_company_number companies_house_company_number : Option (List Char)) : ℚ :=
  if ¬ truthy ocr_company_number ∨ ¬ truthy companies_house_company_number then 0
  else
    let ocr_normalized := normalize_company_number ocr_company_number
    let ch_normalized := normalize_company_number companies_house_company_number
    if ¬ truthy ocr_normalized ∨ ¬ truthy ch_normalized then 0
    else if ocr_normalized = ch_normalized then 40
    else calculate_similarity ocr_normalized ch_normalized * 40

/-- Left-zero-padding of a company number to 8 characters. -/
def pad8 (l : List Char) : List Char :=
  List.replicate (8 - l.length) '0' ++ l

/-- The terminal classification produced by scoring (the strings
`"PASS"`, `"REVIEW"`, `"FAIL"` of the source). -/
inductive Decision
  | PASS
  | REVIEW
  | FAIL
deriving DecidableEq, Repr

/-- The name/number/address slice of the `ocr_data` and
`companies_house_data` dictionaries consumed by `make_decision`. -/
structure CompanyData where
  company_name : Option (List Char)
  company_number : Option (List Char)
  address : Option (List Char)
deriving DecidableEq

/-- `ScoringService.make_decision`: the name-similarity override checks
`name_sim < 0.90` first and returns `"REVIEW"`, so its
`elif name_sim < 0.85: return "FAIL"` is evaluated only when
`name_sim ≥ 0.90` (transcribed verbatim); otherwise thresholds
{≥75 PASS, ≥50 REVIEW, else FAIL} apply.  `ocr_data`/`companies_house_data`
are `none` when the Python argument was a falsy dict. -/
def make_decision (final_score : ℚ)
    (ocr_data companies_house_data : Option CompanyData) : Decision :=
  match ocr_data, companies_house_data with
  | some ocr, some ch =>
    if truthy ocr.company_name ∧ truthy ch.company_name then
      let name_sim := calculate_similarity ocr.company_name ch.company_name
      if name_sim < 0.90 then Decision.REVIEW
      else if name_sim < 0.85 then Decision.FAIL
      else
        if final_score ≥ 75 then Decision.PASS
        else if final_score ≥ 50 then Decision.REVIEW
        else Decision.FAIL
    else
      if final_score ≥ 75 then Decision.PASS
      else if final_score ≥ 50 then Decision.REVIEW
      else Decision.FAIL
  | _, _ =>
    if final_score ≥ 75 then Decision.PASS
    else if final_score ≥ 50 then Decision.REVIEW
    else Decision.FAIL

/-! ## ForensicService (src/backend/app/services/forensic_service.py) -/

/-- The image-editor names searched for in PDF creator/producer metadata. -/
def suspicious_software : List (List Char) :=
  ["photoshop".data, "gimp".data, "paint".data, "paint.net".data,
   "coreldraw".data, "illustrator".data, "inkscape".data, "canva".data,
   "figma".data, "sketch".data]

/-- `ForensicService.analyze_pdf_metadata`, reduced to the suspicious flag
and score it produces from the metadata fields the checks read.  The date
comparisons of checks 1 and 4 are abstracted into the two Booleans computed
by the source's string comparisons.  Returns `(suspicious, score)`. -/
def analyze_pdf_metadata (has_metadata : Bool)
    (creator producer : Option (List Char))
    (creation_after_modification recent_mod_date : Bool) : Bool × ℚ :=
  if ¬ has_metadata then (false, 50)
  else
    let creatorL := pyLower (creator.getD [])
    let producerL := pyLower (producer.getD [])
    let s1 : ℚ × Nat :=
      if creation_after_modification then (100 - 20, 1) else (100, 0)
    let s2 : ℚ × Nat :=
      suspicious_software.foldl
        (fun acc software =>
          if listContains creatorL software || listContains producerL software then
            (acc.1 - 15, acc.2 + 1)
          else acc) s1
    let s3 : ℚ × Nat :=
      if ¬ truthy creator ∧ ¬ truthy producer then (s2.1 - 10, s2.2 + 1) else s2
    let s4 : ℚ × Nat :=
      if recent_mod_date then (s3.1 - 5, s3.2 + 1) else s3
    (s4.2 > 0, max 0 (min 100 s4.1))

/-- The per-check results that `ForensicService.process_document` combines
into the forensic penalty on its normal path. -/
structure ForensicChecks where
  ela_score : ℚ
  copy_move_detected : Bool
  copy_move_confidence : ℚ
  is_scanned_doc : Bool
  jpeg_quality : ℚ
  pdf_suspicious : Bool
  pdf_score : ℚ
  res_suspicious : Bool
  res_score : ℚ
  color_suspicious : Bool
  color_score : ℚ
  noise_suspicious : Bool
  noise_score : ℚ
deriving DecidableEq

/-- The uncapped penalty accumulated by `process_document` (the sum of the
`penalty += …` contributions). -/
def forensic_penalty_raw (c : ForensicChecks) : ℚ :=
  (if c.ela_score > 50 then 5 else 0)
  + (if c.copy_move_detected then
      (if c.is_scanned_doc then
        (if c.copy_move_confidence > 70 then 5
         else if c.copy_move_confidence > 50 then 3
         else 1.5)
       else
        (if c.copy_move_confidence > 40 then 7
         else if c.copy_move_confidence > 25 then 4
         else 2))
     else 0)
  + (if c.jpeg_quality < 30 then 3 else 0)
  + (if c.pdf_suspicious ∧ c.pdf_score < 70 then 2 else 0)
  + (if c.res_suspicious ∧ c.res_score < 70 then 2 else 0)
  + (if c.color_suspicious ∧ c.color_score < 50 then 1.5 else 0)
  + (if c.noise_suspicious ∧ c.noise_score < 70 then 2 else 0)

/-- `forensic_penalty = min(15.0, penalty)`. -/
def forensic_penalty (c : ForensicChecks) : ℚ :=
  min 15 (forensic_penalty_raw c)

/-- `forensic_score = 100.0 - (forensic_penalty / 15.0 * 100.0)`. -/
def forensic_score (c : ForensicChecks) : ℚ :=
  100 - forensic_penalty c / 15 * 100

/-- The four return paths of `ForensicService.process_document`. -/
inductive ForensicInput
  | missingFile
  | pdfConversionFailed
  | unhandledException
  | normal (c : ForensicChecks)

/-- `ForensicService.process_document`, restricted to the
`(forensic_score, forensic_penalty)` pair each return path produces: the
three error paths return `(0.0, 15.0)` and the normal path the computed
pair. -/
def forensic_process_document : ForensicInput → ℚ × ℚ
  | ForensicInput.missingFile => (0, 15)
  | ForensicInput.pdfConversionFailed => (0, 15)
  | ForensicInput.unhandledException => (0, 15)
  | ForensicInput.normal c => (forensic_score c, forensic_penalty c)

/-! ## OCRService.extract_text_from_pdf (src/backend/app/services/ocr_service.py) -/

/-- The spec's extraction error taxonomy.  Modelled from the spec: the spec
names an `ExtractionError{NotFound}` outcome, but no such exception class
exists anywhere in the source; the type exists here only so the claimed
failure can be stated. -/
inductive ExtractionError
  | notFound
deriving DecidableEq

/-- Outcome of one Textract call (sync or async) as distinguished by the
handlers of `extract_text_from_pdf`. -/
inductive OcrCall
  | ok (text : String) (confidence : ℚ)
  | clientError (code msg : String)
  | botoCoreError
  | otherException
deriving DecidableEq

/-- Environment of one `extract_text_from_pdf` invocation.
`fileSizeMB = none` means the file does not exist — the `open` raises
`FileNotFoundError`, which the function catches. -/
structure OcrEnv where
  clientAvailable : Bool
  fileSizeMB : Option ℚ
  syncCall : OcrCall
  s3Bucket : Option String
  asyncCall : OcrCall
deriving DecidableEq

/-- The size-related test on a ClientError message:
`'size' in error_message.lower() or '5MB' in error_message`. -/
def sizeRelatedMsg (msg : String) : Bool :=
  listContains (pyLower msg.data) ("size".data) || listContains msg.data ("5MB".data)

/-- The async branch of `extract_text_from_pdf` (S3 bucket required; every
failure of the async call is caught by the outer handlers and degrades to
`("", 0.0)`). -/
def extract_text_async_branch (env : OcrEnv) : Except ExtractionError (String × ℚ) :=
  match env.s3Bucket with
  | none => Except.ok ("", 0)
  | some _ =>
    match env.asyncCall with
    | OcrCall.ok t c => Except.ok (t, c)
    | _ => Except.ok ("", 0)

/-- `OCRService.extract_text_from_pdf`: no Textract client → `("", 0.0)`;
missing file → `FileNotFoundError`, caught → `("", 0.0)`; files ≤ 5 MB go
through the sync call, whose size-related `InvalidParameterException`
falls through to the async branch and whose other errors are caught by the
outer handlers → `("", 0.0)`; larger files go straight to the async
branch. -/
def extract_text_from_pdf (env : OcrEnv) : Except ExtractionError (String × ℚ) :=
  if ¬ env.clientAvailable then Except.ok ("", 0)
  else
    match env.fileSizeMB with
    | none => Except.ok ("", 0)
    | some sz =>
      if sz ≤ 5 then
        match env.syncCall with
        | OcrCall.ok t c => Except.ok (t, c)
        | OcrCall.clientError code msg =>
          if code = "InvalidParameterException" ∧ sizeRelatedMsg msg then
            extract_text_async_branch env
          else Except.ok ("", 0)
        | OcrCall.botoCoreError => Except.ok ("", 0)
        | OcrCall.otherException => Except.ok ("", 0)
      else extract_text_async_branch env

/-! ## The ScoringService class surface (for the pipeline calls)

Python resolves `ScoringService.process_vat_scoring` by attribute lookup on
the class; a name that is not defined in the class body raises
`AttributeError`.  The list below transcribes every method defined in
`class ScoringService` in src/backend/app/services/scoring_service.py. -/

/-- The methods defined in `class ScoringService`. -/
def scoringServiceAttrs : List String :=
  ["normalize_company_number", "calculate_similarity",
   "calculate_registry_score", "calculate_provided_data_accuracy",
   "calculate_ocr_score", "calculate_data_match_score",
   "calculate_ocr_comparison_score", "calculate_final_score",
   "make_decision", "process_scoring"]

/-- Python attribute lookup on `ScoringService`. -/
def getattrScoringService (name : String) : Except String Unit :=
  if scoringServiceAttrs.contains name then Except.ok ()
  else Except.error ("AttributeError")

/-- The scoring call at step 4 of `VATRegistrationPipeline.process`:
`ScoringService.process_vat_scoring(...)`. -/
def vat_pipeline_scoring_call : Except String Unit :=
  getattrScoringService ("process_vat_scoring")

/-- The scoring call at step 4 of `DirectorVerificationPipeline.process`:
`ScoringService.process_director_scoring(...)`. -/
def director_pipeline_scoring_call : Except String Unit :=
  getattrScoringService ("process_director_scoring")

/-! ## The verification runner and Process endpoint
(src/backend/app/api/v1/verification.py) -/

/-- Document lifecycle status strings. -/
inductive Status
  | pending
  | processing
  | passed
  | failed
  | review
  | manual_review
deriving DecidableEq, Repr

/-- Step names of the progress events `process_document_verification`
emits. -/
inductive StepName
  | initializing
  | file_validation
  | ocr_extraction
  | ocr_complete
  | forensic_analysis
  | forensic_complete
  | companies_house_lookup
  | companies_house_complete
  | companies_house_skipped
  | score_calculation
  | complete
  | error_step
deriving DecidableEq, Repr

/-- A progress event reduced to the (step, percent) pair the claims are
about. -/
abbrev ProgressEvent := StepName × Nat

/-- The document record slice read and written by the runner and the
Process endpoint. -/
structure DocState where
  status : Status
  decision : Option Decision
deriving DecidableEq, Repr

/-- Stage outcomes of one run that the runner branches on: whether the
local file exists, whether OCR or the merchant supplied a company number,
and the decision `ScoringService.process_scoring` produces. -/
structure RunnerEnv where
  fileExists : Bool
  ocrCompanyNumber : Option String
  merchantCompanyNumber : Option String
  scoringDecision : Decision
deriving DecidableEq

/-- Status assigned from the scoring decision at step 5. -/
def statusOfDecision : Decision → Status
  | Decision.PASS => Status.passed
  | Decision.FAIL => Status.failed
  | Decision.REVIEW => Status.review

/-- `process_document_verification(document_id)`: look up the document
(`none` → return with no events), set status to processing, then walk the
stages, emitting the progress schedule; a missing file fails the job after
the first event.  Returns the final document state and the ordered list of
emitted events. -/
def process_document_verification (env : RunnerEnv) :
    Option DocState → Option DocState × List ProgressEvent
  | none => (none, [])
  | some doc =>
    let _ := doc  -- status := "processing" is committed before the first event
    if ¬ env.fileExists then
      (some { doc with status := Status.failed }, [(StepName.initializing, 5)])
    else
      let chStep :=
        if (env.ocrCompanyNumber <|> env.merchantCompanyNumber).isSome then
          StepName.companies_house_complete
        else StepName.companies_house_skipped
      (some { doc with status := statusOfDecision env.scoringDecision,
                       decision := some env.scoringDecision },
       [(StepName.initializing, 5), (StepName.file_validation, 10),
        (StepName.ocr_extraction, 20), (StepName.ocr_complete, 40),
        (StepName.forensic_analysis, 50), (StepName.forensic_complete, 60),
        (StepName.companies_house_lookup, 70), (chStep, 80),
        (StepName.score_calculation, 90), (StepName.complete, 100)])

/-- The `POST /process/{document_id}` endpoint `process_verification`:
return early (scheduling nothing) when status is `processing` or in
`["passed", "failed"]`; otherwise schedule
`process_document_verification` as a background task.  Returns the
document state after the scheduled task (if any) ran, and the events that
task emitted. -/
def process_verification (doc : DocState) (env : RunnerEnv) :
    DocState × List ProgressEvent :=
  if doc.status = Status.processing then (doc, [])
  else if doc.status = Status.passed ∨ doc.status = Status.failed then (doc, [])
  else
    match process_document_verification env (some doc) with
    | (some doc', events) => (doc', events)
    | (none, events) => (doc, events)

/-! ## ProgressService (src/backend/app/services/progress_service.py) -/

/-- The payload stored per document and delivered to subscribers
(step, percent, message, status). -/
structure ProgressData where
  step : StepName
  progress : Nat
  message : String
  statusOverride : Option Status
deriving DecidableEq

/-- Association-list update with Python dict semantics: replace the value
of an existing key, otherwise append the binding. -/
def dictSet {α : Type} (l : List (String × α)) (k : String) (v : α) :
    List (String × α) :=
  match l with
  | [] => [(k, v)]
  | (k', v') :: t => if k' = k then (k', v) :: t else (k', v') :: dictSet t k v

/-- Association-list deletion (Python `del d[k]`). -/
def dictDel {α : Type} (l : List (String × α)) (k : String) :
    List (String × α) :=
  match l with
  | [] => []
  | (k', v') :: t => if k' = k then t else (k', v') :: dictDel t k

/-- The `ProgressService` state: `_connections` (document id → subscriber
queue ids) and `_progress_data` (document id → latest event). -/
structure ProgressState where
  connections : List (String × List Nat)
  progressData : List (String × ProgressData)
deriving DecidableEq

/-- `ProgressService.unsubscribe`: remove the queue from the document's
subscriber list and drop the key when the list empties; `_progress_data`
is not touched. -/
def unsubscribe (s : ProgressState) (document_id : String) (queue : Nat) :
    ProgressState :=
  match (s.connections.lookup document_id) with
  | none => s
  | some qs =>
    let qs' := qs.erase queue
    if qs'.isEmpty then
      { s with connections := dictDel s.connections document_id }
    else
      { s with connections := dictSet s.connections document_id qs' }

/-- `ProgressService.update_progress`: store the event as the document's
latest and broadcast it to the subscriber queues (deliveries returned
separately; delivery failure removal is not modelled — no delivery fails
here). -/
def update_progress (s : ProgressState) (document_id : String)
    (d : ProgressData) : ProgressState × List (Nat × ProgressData) :=
  ({ s with progressData := dictSet s.progressData document_id d },
   ((s.connections.lookup document_id).getD []).map (fun q => (q, d)))

/-- `ProgressService.get_progress`: the latest stored event, if any. -/
def get_progress (s : ProgressState) (document_id : String) :
    Option ProgressData :=
  s.progressData.lookup document_id

/-- `ProgressService.clear_progress`: drop both the stored event and the
subscriber list of the document. -/
def clear_progress (s : ProgressState) (document_id : String) :
    ProgressState :=
  { connections := dictDel s.connections document_id,
    progressData := dictDel s.progressData document_id }

/-! ## Proof apparatus and concrete instances -/

/-- A triple `(i, j, k)` is a matching block of the window
`a[alo‥ahi) × b[blo‥bhi)`. -/
def MatchTriple (a b : List Char) (alo ahi blo bhi : Nat)
    (t : Nat × Nat × Nat) : Prop :=
  alo ≤ t.1 ∧ blo ≤ t.2.1 ∧ t.1 + t.2.2 ≤ ahi ∧ t.2.1 + t.2.2 ≤ bhi ∧
    seg a t.1 (t.1 + t.2.2) = seg b t.2.1 (t.2.1 + t.2.2)

/-- Keys of the progress-data store are pairwise distinct (true of every
state reachable through the Python dict operations). -/
def ProgressKeysDistinct (s : ProgressState) : Prop :=
  (s.progressData.map Prod.fst).Nodup

/-- OCR data of the name-override failing input: company name read from the
document. -/
def c1_ocr_data : CompanyData :=
  ⟨some ("AAAA".data), none, none⟩

/-- Registry data of the name-override failing input: a completely
different registered name (name similarity 0). -/
def c1_ch_data : CompanyData :=
  ⟨some ("ZZZZ".data), none, none⟩

/-- PDF-metadata analysis of the saturation scenario: metadata present,
producer "Adobe Photoshop", no other suspicious signal. -/
def c8_pdf_meta : Bool × ℚ :=
  analyze_pdf_metadata true none (some ("Adobe Photoshop".data)) false false

/-- The forensic check results of the saturation scenario: ELA normalized
score 80, copy-move detected at confidence 75 on a non-scanned document,
the PDF default JPEG quality 75, and the metadata result above. -/
def c8_checks : ForensicChecks :=
  ⟨80, true, 75, false, 75, c8_pdf_meta.1, c8_pdf_meta.2,
   false, 100, false, 100, false, 100⟩

/-- Extraction environment in which the input file does not exist (the
Textract client is available; the other fields are never reached). -/
def c9_env : OcrEnv :=
  ⟨true, none, OcrCall.otherException, none, OcrCall.otherException⟩

/-- A successful-run environment: file present, OCR found a company
number, scoring decided PASS. -/
def run_env : RunnerEnv :=
  ⟨true, some ("03035678"), none, Decision.PASS⟩

/-- A job in the `review` terminal state (decision REVIEW). -/
def review_doc : DocState :=
  ⟨Status.review, some Decision.REVIEW⟩

/-- A pending job, before processing. -/
def pending_doc : DocState :=
  ⟨Status.pending, none⟩

/-- A progress-service state with one subscriber and no stored event. -/
def pstate0 : ProgressState :=
  ⟨[(("doc1"), [1])], []⟩

/-- A terminal progress event. -/
def pdata0 : ProgressData :=
  ⟨StepName.complete, 100, "done", some Status.passed⟩

/-! ## Helper lemmas: segments and common runs -/

theorem commonRunLen_le_left : ∀ xs ys : List Char, commonRunLen xs ys ≤ xs.length
  | [], _ => by simp [commonRunLen]
  | _ :: _, [] => by simp [commonRunLen]
  | x :: xs, y :: ys => by
    by_cases h : x = y
    · simpa [commonRunLen, h] using commonRunLen_le_left xs ys
    · simp [commonRunLen, h]

theorem commonRunLen_le_right : ∀ xs ys : List Char, commonRunLen xs ys ≤ ys.length
  | [], _ => by simp [commonRunLen]
  | _ :: _, [] => by simp [commonRunLen]
  | x :: xs, y :: ys => by
    by_cases h : x = y
    · simpa [commonRunLen, h] using commonRunLen_le_right xs ys
    · simp [commonRunLen, h]

theorem take_commonRunLen_eq : ∀ xs ys : List Char,
    xs.take (commonRunLen xs ys) = ys.take (commonRunLen xs ys)
  | [], _ => by simp [commonRunLen]
  | _ :: _, [] => by simp [commonRunLen]
  | x :: xs, y :: ys => by
    by_cases h : x = y
    · simp [commonRunLen, h, take_commonRunLen_eq xs ys]
    · simp [commonRunLen, h]

theorem seg_length_le (l : List Char) (lo hi : Nat) :
    (seg l lo hi).length ≤ hi - lo := by
  simp [seg]

theorem seg_self (l : List Char) : seg l 0 l.length = l := by
  simp [seg]

theorem seg_empty (l : List Char) {lo hi : Nat} (h : hi ≤ lo) :
    seg l lo hi = [] := by
  have : hi - lo = 0 := by omega
  simp [seg, this]

theorem seg_take (l : List Char) {lo hi k : Nat} (hk : k ≤ hi - lo) :
    (seg l lo hi).take k = seg l lo (lo + k) := by
  simp only [seg, List.take_take]
  rw [Nat.min_eq_left hk, Nat.add_sub_cancel_left]

theorem seg_split (l : List Char) {lo mid hi : Nat} (h1 : lo ≤ mid)
    (h2 : mid ≤ hi) : seg l lo hi = seg l lo mid ++ seg l mid hi := by
  simp only [seg]
  have hd : hi - lo = (mid - lo) + (hi - mid) := by omega
  rw [hd, List.take_add, List.drop_drop]
  have : lo + (mid - lo) = mid := by omega
  rw [this]

/-! ## Helper lemmas: the matcher -/

theorem runLen_matchTriple (a b : List Char) {alo ahi blo bhi i j : Nat}
    (hia : alo ≤ i) (hib : i ≤ ahi) (hja : blo ≤ j) (hjb : j ≤ bhi) :
    MatchTriple a b alo ahi blo bhi (i, j, runLen a b i j ahi bhi) := by
  have hk1 : runLen a b i j ahi bhi ≤ ahi - i :=
    le_trans (commonRunLen_le_left _ _) (seg_length_le a i ahi)
  have hk2 : runLen a b i j ahi bhi ≤ bhi - j :=
    le_trans (commonRunLen_le_right _ _) (seg_length_le b j bhi)
  simp only [MatchTriple]
  refine ⟨hia, hja, by omega, by omega, ?_⟩
  calc seg a i (i + runLen a b i j ahi bhi)
      = (seg a i ahi).take (runLen a b i j ahi bhi) := (seg_take a hk1).symm
    _ = (seg b j bhi).take (runLen a b i j ahi bhi) := take_commonRunLen_eq _ _
    _ = seg b j (j + runLen a b i j ahi bhi) := seg_take b hk2

theorem foldl_matchTriple (a b : List Char) {alo ahi blo bhi : Nat} :
    ∀ (l : List (Nat × Nat)) (acc : Nat × Nat × Nat),
      MatchTriple a b alo ahi blo bhi acc →
      (∀ p ∈ l, alo ≤ p.1 ∧ p.1 ≤ ahi ∧ blo ≤ p.2 ∧ p.2 ≤ bhi) →
      MatchTriple a b alo ahi blo bhi
        (l.foldl (fun best p =>
          let k := runLen a b p.1 p.2 ahi bhi
          if best.2.2 < k then (p.1, p.2, k) else best) acc)
  | [], acc, hacc, _ => hacc
  | p :: t, acc, hacc, hl => by
    simp only [List.foldl_cons]
    apply foldl_matchTriple a b t
    · by_cases h : acc.2.2 < runLen a b p.1 p.2 ahi bhi
      · obtain ⟨h1, h2, h3, h4⟩ := hl p (List.mem_cons_self p t)
        simpa [h] using runLen_matchTriple a b h1 h2 h3 h4
      · simpa [h] using hacc
    · exact fun q hq => hl q (List.mem_cons_of_mem p hq)

theorem findLongestMatch_spec (a b : List Char) {alo ahi blo bhi : Nat}
    (h1 : alo ≤ ahi) (h2 : blo ≤ bhi) :
    MatchTriple a b alo ahi blo bhi (findLongestMatch a b alo ahi blo bhi) := by
  apply foldl_matchTriple
  · have h3 : alo + 0 ≤ ahi := by omega
    have h4 : blo + 0 ≤ bhi := by omega
    have h5 : seg a alo (alo + 0) = seg b blo (blo + 0) := by
      rw [seg_empty a (by omega), seg_empty b (by omega)]
    exact ⟨le_refl alo, le_refl blo, h3, h4, h5⟩
  · intro p hp
    simp only [candPairs, List.mem_flatMap, List.mem_map] at hp
    obtain ⟨i, hi, j, hj, rfl⟩ := hp
    rw [List.mem_range'_1] at hi hj
    exact ⟨by omega, by omega, by omega, by omega⟩

theorem matchedSize_le (a b : List Char) :
    ∀ (fuel alo ahi blo bhi : Nat), alo ≤ ahi → blo ≤ bhi →
      matchedSize a b fuel alo ahi blo bhi ≤ min (ahi - alo) (bhi - blo)
  | 0, alo, ahi, blo, bhi, _, _ => by simp [matchedSize]
  | fuel + 1, alo, ahi, blo, bhi, hA, hB => by
    obtain ⟨hia, hja, hik, hjk, _⟩ := findLongestMatch_spec a b hA hB
    simp only [matchedSize]
    split
    · omega
    · have hleft : (if alo < (findLongestMatch a b alo ahi blo bhi).1 ∧
          blo < (findLongestMatch a b alo ahi blo bhi).2.1 then
          matchedSize a b fuel alo (findLongestMatch a b alo ahi blo bhi).1 blo
            (findLongestMatch a b alo ahi blo bhi).2.1 else 0) ≤
          min ((findLongestMatch a b alo ahi blo bhi).1 - alo)
            ((findLongestMatch a b alo ahi blo bhi).2.1 - blo) := by
        split
        · exact matchedSize_le a b fuel _ _ _ _ hia hja
        · omega
      have hright : (if (findLongestMatch a b alo ahi blo bhi).1 +
            (findLongestMatch a b alo ahi blo bhi).2.2 < ahi ∧
            (findLongestMatch a b alo ahi blo bhi).2.1 +
            (findLongestMatch a b alo ahi blo bhi).2.2 < bhi then
          matchedSize a b fuel
            ((findLongestMatch a b alo ahi blo bhi).1 +
              (findLongestMatch a b alo ahi blo bhi).2.2) ahi
            ((findLongestMatch a b alo ahi blo bhi).2.1 +
              (findLongestMatch a b alo ahi blo bhi).2.2) bhi else 0) ≤
          min (ahi - ((findLongestMatch a b alo ahi blo bhi).1 +
              (findLongestMatch a b alo ahi blo bhi).2.2))
            (bhi - ((findLongestMatch a b alo ahi blo bhi).2.1 +
              (findLongestMatch a b alo ahi blo bhi).2.2)) := by
        split
        · exact matchedSize_le a b fuel _ _ _ _ (by omega) (by omega)
        · omega
      omega

theorem matchedSize_full_eq (a b : List Char) :
    ∀ (fuel alo ahi blo bhi : Nat), alo ≤ ahi → blo ≤ bhi →
      matchedSize a b fuel alo ahi blo bhi = ahi - alo →
      matchedSize a b fuel alo ahi blo bhi = bhi - blo →
      seg a alo ahi = seg b blo bhi
  | 0, alo, ahi, blo, bhi, _, _, hEa, hEb => by
    simp only [matchedSize] at hEa hEb
    rw [seg_empty a (by omega), seg_empty b (by omega)]
  | fuel + 1, alo, ahi, blo, bhi, hA, hB, hEa, hEb => by
    obtain ⟨hia, hja, hik, hjk, hmatch⟩ := findLongestMatch_spec a b hA hB
    set t := findLongestMatch a b alo ahi blo bhi with ht
    simp only [matchedSize, ← ht] at hEa hEb
    by_cases hk : t.2.2 = 0
    · rw [if_pos hk] at hEa hEb
      rw [seg_empty a (by omega), seg_empty b (by omega)]
    · rw [if_neg hk] at hEa hEb
      set Ml := (if alo < t.1 ∧ blo < t.2.1 then
        matchedSize a b fuel alo t.1 blo t.2.1 else 0) with hMl
      set Mr := (if t.1 + t.2.2 < ahi ∧ t.2.1 + t.2.2 < bhi then
        matchedSize a b fuel (t.1 + t.2.2) ahi (t.2.1 + t.2.2) bhi else 0) with hMr
      have hMl_le : Ml ≤ (t.1 - alo) ∧ Ml ≤ (t.2.1 - blo) := by
        rw [hMl]
        constructor <;> (split)
        · exact le_trans (matchedSize_le a b fuel _ _ _ _
            (by omega) (by omega)) (Nat.min_le_left _ _)
        · exact Nat.zero_le _
        · exact le_trans (matchedSize_le a b fuel _ _ _ _
            (by omega) (by omega)) (Nat.min_le_right _ _)
        · exact Nat.zero_le _
      have hMr_le : Mr ≤ (ahi - (t.1 + t.2.2)) ∧ Mr ≤ (bhi - (t.2.1 + t.2.2)) := by
        rw [hMr]
        constructor <;> (split)
        · exact le_trans (matchedSize_le a b fuel _ _ _ _
            (by omega) (by omega)) (Nat.min_le_left _ _)
        · exact Nat.zero_le _
        · exact le_trans (matchedSize_le a b fuel _ _ _ _
            (by omega) (by omega)) (Nat.min_le_right _ _)
        · exact Nat.zero_le _
      have hleft : seg a alo t.1 = seg b blo t.2.1 := by
        by_cases hc : alo < t.1 ∧ blo < t.2.1
        · have hrec : matchedSize a b fuel alo t.1 blo t.2.1 = Ml := by
            rw [hMl, if_pos hc]
          exact matchedSize_full_eq a b fuel alo t.1 blo t.2.1
            (by omega) (by omega) (by omega) (by omega)
        · have h0 : Ml = 0 := by rw [hMl, if_neg hc]
          rw [seg_empty a (by omega), seg_empty b (by omega)]
      have hright : seg a (t.1 + t.2.2) ahi = seg b (t.2.1 + t.2.2) bhi := by
        by_cases hc : t.1 + t.2.2 < ahi ∧ t.2.1 + t.2.2 < bhi
        · have hrec : matchedSize a b fuel (t.1 + t.2.2) ahi (t.2.1 + t.2.2) bhi = Mr := by
            rw [hMr, if_pos hc]
          exact matchedSize_full_eq a b fuel (t.1 + t.2.2) ahi (t.2.1 + t.2.2) bhi
            (by omega) (by omega) (by omega) (by omega)
        · have h0 : Mr = 0 := by rw [hMr, if_neg hc]
          rw [seg_empty a (by omega), seg_empty b (by omega)]
      calc seg a alo ahi
          = seg a alo t.1 ++ (seg a t.1 (t.1 + t.2.2) ++ seg a (t.1 + t.2.2) ahi) := by
            rw [← seg_split a (Nat.le_add_right _ _) hik, ← seg_split a (by omega) (by omega)]
        _ = seg b blo t.2.1 ++ (seg b t.2.1 (t.2.1 + t.2.2) ++ seg b (t.2.1 + t.2.2) bhi) := by
            rw [hleft, hmatch, hright]
        _ = seg b blo bhi := by
            rw [← seg_split b (Nat.le_add_right _ _) hjk, ← seg_split b (by omega) (by omega)]

theorem totalMatched_le (a b : List Char) :
    totalMatched a b ≤ min a.length b.length := by
  have h := matchedSize_le a b (a.length + b.length + 1) 0 a.length 0 b.length
    (Nat.zero_le _) (Nat.zero_le _)
  simpa [totalMatched] using h

theorem ratioVal_eq_one {a b : List Char}
    (h : seqMatcherRatioVal a b = 1) : a = b := by
  by_cases h0 : a.length + b.length = 0
  · have ha : a = [] := List.length_eq_zero.mp (by omega)
    have hb : b = [] := List.length_eq_zero.mp (by omega)
    rw [ha, hb]
  · rw [seqMatcherRatioVal, if_neg h0] at h
    have hne : ((a.length : ℚ) + (b.length : ℚ)) ≠ 0 := by
      intro hc
      apply h0
      have : ((a.length + b.length : Nat) : ℚ) = 0 := by push_cast; linarith
      exact_mod_cast this
    have h2 : (2 * (totalMatched a b : ℚ)) = (a.length : ℚ) + (b.length : ℚ) := by
      field_simp at h
      linarith
    have h3 : 2 * totalMatched a b = a.length + b.length := by exact_mod_cast h2
    have h4 := totalMatched_le a b
    have hMa : totalMatched a b ≤ a.length := le_trans h4 (Nat.min_le_left _ _)
    have hMb : totalMatched a b ≤ b.length := le_trans h4 (Nat.min_le_right _ _)
    have hEa : matchedSize a b (a.length + b.length + 1) 0 a.length 0 b.length
        = a.length - 0 := by
      show totalMatched a b = a.length - 0
      omega
    have hEb : matchedSize a b (a.length + b.length + 1) 0 a.length 0 b.length
        = b.length - 0 := by
      show totalMatched a b = b.length - 0
      omega
    have hseg := matchedSize_full_eq a b (a.length + b.length + 1) 0 a.length 0 b.length
      (Nat.zero_le _) (Nat.zero_le _) hEa hEb
    rwa [seg_self, seg_self] at hseg

/-! ## Helper lemmas: digit strings under the Python string operations -/

theorem upperAscii_digit {c : Char} (h : c ∈ pyDigits) : upperAscii c = c := by
  simp only [pyDigits, List.mem_cons, List.not_mem_nil, or_false] at h
  rcases h with rfl | rfl | rfl | rfl | rfl | rfl | rfl | rfl | rfl | rfl <;> decide

theorem isPySpace_digit {c : Char} (h : c ∈ pyDigits) : isPySpace c = false := by
  simp only [pyDigits, List.mem_cons, List.not_mem_nil, or_false] at h
  rcases h with rfl | rfl | rfl | rfl | rfl | rfl | rfl | rfl | rfl | rfl <;> decide

theorem digit_ne_dash {c : Char} (h : c ∈ pyDigits) : c ≠ '-' := by
  simp only [pyDigits, List.mem_cons, List.not_mem_nil, or_false] at h
  rcases h with rfl | rfl | rfl | rfl | rfl | rfl | rfl | rfl | rfl | rfl <;> decide

theorem map_eq_self_of_eq {f : Char → Char} : ∀ {l : List Char},
    (∀ c ∈ l, f c = c) → l.map f = l
  | [], _ => rfl
  | x :: t, h => by
    simp only [List.map_cons, h x (List.mem_cons_self x t), List.cons.injEq, true_and]
    exact map_eq_self_of_eq (fun c hc => h c (List.mem_cons_of_mem x hc))

theorem pyUpper_digits {l : List Char} (h : ∀ c ∈ l, c ∈ pyDigits) :
    pyUpper l = l := by
  simp only [pyUpper]
  exact map_eq_self_of_eq (fun c hc => upperAscii_digit (h c hc))

theorem dropWhile_eq_self_of_all_false {p : Char → Bool} {l : List Char}
    (h : ∀ c ∈ l, p c = false) : l.dropWhile p = l := by
  cases l with
  | nil => rfl
  | cons x t => simp [List.dropWhile, h x (List.mem_cons_self x t)]

theorem pyStrip_digits {l : List Char} (h : ∀ c ∈ l, c ∈ pyDigits) :
    pyStrip l = l := by
  simp only [pyStrip]
  rw [dropWhile_eq_self_of_all_false (fun c hc => isPySpace_digit (h c hc))]
  rw [dropWhile_eq_self_of_all_false
    (fun c hc => isPySpace_digit (h c (List.mem_reverse.mp hc)))]
  exact List.reverse_reverse l

theorem filter_digits {l : List Char} (h : ∀ c ∈ l, c ∈ pyDigits) :
    l.filter (fun c => !(isPySpace c || c = '-')) = l := by
  apply List.filter_eq_self.mpr
  intro c hc
  have h1 := isPySpace_digit (h c hc)
  have h2 := digit_ne_dash (h c hc)
  simp [h1, h2]

theorem filter_digits_norm {l : List Char} (h : ∀ c ∈ l, c ∈ pyDigits) :
    l.filter (fun c => !isPySpace c && !decide (c = '-')) = l := by
  apply List.filter_eq_self.mpr
  intro c hc
  have h1 := isPySpace_digit (h c hc)
  have h2 := digit_ne_dash (h c hc)
  simp [h1, h2]

theorem pyIsDigit_of_digits {l : List Char} (hne : l ≠ [])
    (h : ∀ c ∈ l, c ∈ pyDigits) : pyIsDigit l = true := by
  simp only [pyIsDigit, Bool.and_eq_true, Bool.not_eq_true', List.all_eq_true]
  refine ⟨by simp [List.isEmpty_iff, hne], fun c hc => ?_⟩
  simpa [List.contains] using h c hc

theorem pad8_digits {d : List Char} (h : ∀ c ∈ d, c ∈ pyDigits) :
    ∀ c ∈ pad8 d, c ∈ pyDigits := by
  intro c hc
  rw [pad8, List.mem_append] at hc
  rcases hc with hc | hc
  · rw [List.eq_of_mem_replicate hc]
    decide
  · exact h c hc

theorem pad8_length {d : List Char} (h : d.length ≤ 8) :
    (pad8 d).length = 8 := by
  simp [pad8]
  omega

theorem chPattern_digits {l : List Char} (hlen : l.length = 8)
    (h : ∀ c ∈ l, c ∈ pyDigits) : chPattern l = true := by
  simp only [chPattern, Bool.and_eq_true, Bool.or_eq_true, decide_eq_true_eq,
    List.all_eq_true]
  refine ⟨hlen, Or.inr (fun c hc => ?_)⟩
  simpa [List.contains] using h c hc

theorem truthy_of_ne_nil {x : List Char} (hx : x ≠ []) :
    truthy (some x) = true := by
  cases x with
  | nil => exact absurd rfl hx
  | cons c t => rfl

theorem normalize_digits_pad {d : List Char} (h : ∀ c ∈ d, c ∈ pyDigits)
    (hlen : d.length = 6 ∨ d.length = 7) :
    normalize_company_number (some d) = some (pad8 d) := by
  have hne : d ≠ [] := by
    intro he
    rw [he] at hlen
    simp at hlen
  have hEmp : d.isEmpty = false := by simp [List.isEmpty_iff, hne]
  have hup : pyUpper d = d := pyUpper_digits h
  have hfil : d.filter (fun c => !isPySpace c && !decide (c = '-')) = d :=
    filter_digits_norm h
  have hdig : pyIsDigit d = true := pyIsDigit_of_digits hne h
  rcases hlen with h6 | h7
  · have hch : chPattern ('0' :: '0' :: d) = true := by
      apply chPattern_digits
      · simp [h6]
      · intro c hc
        simp only [List.mem_cons] at hc
        rcases hc with rfl | rfl | hc
        · decide
        · decide
        · exact h c hc
    have hpad : pad8 d = '0' :: '0' :: d := by
      rw [pad8, h6]
      rfl
    simp only [normalize_company_number, Bool.not_or]
    rw [hup, hfil, hpad]
    simp [hEmp, hdig, h6, hch]
  · have hch : chPattern ('0' :: d) = true := by
      apply chPattern_digits
      · simp [h7]
      · intro c hc
        simp only [List.mem_cons] at hc
        rcases hc with rfl | hc
        · decide
        · exact h c hc
    have hpad : pad8 d = '0' :: d := by
      rw [pad8, h7]
      rfl
    simp only [normalize_company_number, Bool.not_or]
    rw [hup, hfil, hpad]
    simp [hEmp, hdig, h7, hch]

theorem normalize_digits_len8 {r : List Char} (h : ∀ c ∈ r, c ∈ pyDigits)
    (hlen : r.length = 8) :
    normalize_company_number (some r) = some r := by
  have hne : r ≠ [] := by
    intro he
    rw [he] at hlen
    simp at hlen
  have hEmp : r.isEmpty = false := by simp [List.isEmpty_iff, hne]
  have hup : pyUpper r = r := pyUpper_digits h
  have hfil : r.filter (fun c => !isPySpace c && !decide (c = '-')) = r :=
    filter_digits_norm h
  have hdig : pyIsDigit r = true := pyIsDigit_of_digits hne h
  have hch : chPattern r = true := chPattern_digits hlen h
  simp only [normalize_company_number, Bool.not_or]
  rw [hup, hfil]
  simp [hEmp, hdig, hlen, hch]

theorem calculate_similarity_stable {x y : List Char} (hx : x ≠ []) (hy : y ≠ [])
    (hsx : pyStrip (pyUpper x) = x) (hsy : pyStrip (pyUpper y) = y) :
    calculate_similarity (some x) (some y) =
      if x = y then 1 else seqMatcherRatioVal x y := by
  simp only [calculate_similarity, truthy_of_ne_nil hx, truthy_of_ne_nil hy,
    Option.getD_some, hsx, hsy]
  norm_num

/-! ## Evaluation helpers -/

theorem ratioVal_concrete {x y : List Char} {M lx ly : Nat}
    (hM : totalMatched x y = M) (hx : x.length = lx) (hy : y.length = ly)
    (h0 : ¬ (lx + ly = 0)) :
    seqMatcherRatioVal x y = 2 * (M : ℚ) / ((lx : ℚ) + (ly : ℚ)) := by
  rw [seqMatcherRatioVal, hM, hx, hy, if_neg h0]

theorem forensic_penalty_raw_nonneg (c : ForensicChecks) :
    0 ≤ forensic_penalty_raw c := by
  unfold forensic_penalty_raw
  refine add_nonneg (add_nonneg (add_nonneg (add_nonneg (add_nonneg
    (add_nonneg ?_ ?_) ?_) ?_) ?_) ?_) ?_ <;>
    (repeat' split) <;> norm_num

/-- C5: on every return path of `ForensicService.process_document` the
penalty lies in [0, 15] and the score satisfies
`forensic_score = 100 − (forensic_penalty/15)·100` exactly (hence within
1e-6). -/
theorem C5_forensic_invariant (inp : ForensicInput) :
    0 ≤ (forensic_process_document inp).2 ∧
    (forensic_process_document inp).2 ≤ 15 ∧
    (forensic_process_document inp).1 =
      100 - (forensic_process_document inp).2 / 15 * 100 := by
  cases inp with
  | missingFile => norm_num [forensic_process_document]
  | pdfConversionFailed => norm_num [forensic_process_document]
  | unhandledException => norm_num [forensic_process_document]
  | normal c =>
    refine ⟨?_, ?_, rfl⟩
    · exact le_min (by norm_num) (forensic_penalty_raw_nonneg c)
    · exact min_le_left _ _

/-- C6 counterexample: `calculate_similarity` is not symmetric — the
`SequenceMatcher` ratio of "AB" against "BACB" is 2/3, the swapped ratio is
1/3. -/
theorem C6_counterexample :
    calculate_similarity (some ("AB".data)) (some ("BACB".data)) ≠
      calculate_similarity (some ("BACB".data)) (some ("AB".data)) := by
  have hM1 : totalMatched ("AB".data) ("BACB".data) = 2 := by decide
  have hM2 : totalMatched ("BACB".data) ("AB".data) = 1 := by decide
  have hl1 : ("AB".data).length = 2 := by decide
  have hl2 : ("BACB".data).length = 4 := by decide
  have h1 : calculate_similarity (some ("AB".data)) (some ("BACB".data)) = 2 / 3 := by
    rw [calculate_similarity_stable (by decide) (by decide) (by decide) (by decide),
      if_neg (by decide), ratioVal_concrete hM1 hl1 hl2 (by norm_num)]
    norm_num
  have h2 : calculate_similarity (some ("BACB".data)) (some ("AB".data)) = 1 / 3 := by
    rw [calculate_similarity_stable (by decide) (by decide) (by decide) (by decide),
      if_neg (by decide), ratioVal_concrete hM2 hl2 hl1 (by norm_num)]
    norm_num
  rw [h1, h2]
  norm_num

/-- C6 (amended): `calculate_similarity` is reflexive on non-empty strings
(`sim(a,a) = 1`); symmetry fails in general (see the counterexample). -/
theorem C6_similarity_reflexive (a : List Char) (ha : a ≠ []) :
    calculate_similarity (some a) (some a) = 1 := by
  simp [calculate_similarity, truthy_of_ne_nil ha]

/-- C6 witness: reflexivity at the concrete non-empty string "X". -/
theorem C6_similarity_reflexive_witness :
    ("X".data ≠ []) ∧ calculate_similarity (some ("X".data)) (some ("X".data)) = 1 :=
  ⟨by decide, C6_similarity_reflexive ("X".data) (by decide)⟩

theorem registry_score_norm {d r : List Char} (hd : ∀ c ∈ d, c ∈ pyDigits)
    (hdl : d.length = 6 ∨ d.length = 7) (hr : ∀ c ∈ r, c ∈ pyDigits)
    (hrl : r.length = 8) :
    calculate_registry_score (some d) (some r) =
      if pad8 d = r then 40
      else calculate_similarity (some (pad8 d)) (some r) * 40 := by
  have hdne : d ≠ [] := by
    intro he
    rw [he] at hdl
    simp at hdl
  have hrne : r ≠ [] := by
    intro he
    rw [he] at hrl
    simp at hrl
  have hpl : (pad8 d).length = 8 := pad8_length (by omega)
  have hpadne : pad8 d ≠ [] := by
    intro he
    rw [he] at hpl
    simp at hpl
  simp only [calculate_registry_score, truthy_of_ne_nil hdne, truthy_of_ne_nil hrne,
    normalize_digits_pad hd hdl, normalize_digits_len8 hr hrl,
    truthy_of_ne_nil hpadne, Option.some.injEq]
  norm_num

/-- C7: `calculate_registry_score` returns 0 when either number is absent;
for a 6- or 7-digit all-digit OCR number against an 8-digit registry
number, the score is similarity·40 when left-zero-padding does not give
equality, and the score equals 40 exactly when left-zero-padding the OCR
number to 8 digits reproduces the registry number. -/
theorem C7_registry_score :
    (∀ y, calculate_registry_score none y = 0) ∧
    (∀ x, calculate_registry_score x none = 0) ∧
    (∀ d r : List Char, (∀ c ∈ d, c ∈ pyDigits) → (d.length = 6 ∨ d.length = 7) →
      (∀ c ∈ r, c ∈ pyDigits) → r.length = 8 → pad8 d ≠ r →
      calculate_registry_score (some d) (some r) =
        calculate_similarity (some (pad8 d)) (some r) * 40) ∧
    (∀ d r : List Char, (∀ c ∈ d, c ∈ pyDigits) → (d.length = 6 ∨ d.length = 7) →
      (∀ c ∈ r, c ∈ pyDigits) → r.length = 8 →
      (calculate_registry_score (some d) (some r) = 40 ↔ pad8 d = r)) := by
  refine ⟨?_, ?_, ?_, ?_⟩
  · intro y
    simp [calculate_registry_score, truthy]
  · intro x
    simp [calculate_registry_score, truthy]
  · intro d r hd hdl hr hrl hne
    rw [registry_score_norm hd hdl hr hrl, if_neg hne]
  · intro d r hd hdl hr hrl
    rw [registry_score_norm hd hdl hr hrl]
    constructor
    · intro h40
      by_contra hne
      rw [if_neg hne] at h40
      have h40' : calculate_similarity (some (pad8 d)) (some r) * 40 = 1 * 40 := by
        linarith
      have hsim := mul_right_cancel₀ (by norm_num) h40'
      have hdne : d ≠ [] := by
        intro he
        rw [he] at hdl
        simp at hdl
      have hrne : r ≠ [] := by
        intro he
        rw [he] at hrl
        simp at hrl
      have hpl : (pad8 d).length = 8 := pad8_length (by omega)
      have hpadne : pad8 d ≠ [] := by
        intro he
        rw [he] at hpl
        simp at hpl
      have hpdig := pad8_digits hd
      have hst1 : pyStrip (pyUpper (pad8 d)) = pad8 d := by
        rw [pyUpper_digits hpdig, pyStrip_digits hpdig]
      have hst2 : pyStrip (pyUpper r) = r := by
        rw [pyUpper_digits hr, pyStrip_digits hr]
      rw [calculate_similarity_stable hpadne hrne hst1 hst2, if_neg hne] at hsim
      exact hne (ratioVal_eq_one hsim)
    · intro he
      rw [if_pos he]

/-- C7 witness: the 7-digit OCR number 3035678 scores 40 against the
registry's 03035678, and padding gives equality. -/
theorem C7_witness :
    calculate_registry_score (some ("3035678".data)) (some ("03035678".data)) = 40 :=
  (C7_registry_score.2.2.2 ("3035678".data) ("03035678".data)
    (by decide) (by decide) (by decide) (by decide)).mpr (by decide)

theorem make_decision_low_sim (fs : ℚ) (ocr ch : CompanyData)
    (h1 : truthy ocr.company_name = true) (h2 : truthy ch.company_name = true)
    (hlow : calculate_similarity ocr.company_name ch.company_name < 0.90) :
    make_decision fs (some ocr) (some ch) = Decision.REVIEW := by
  simp only [make_decision, h1, h2, and_self, if_true]
  rw [if_pos hlow]

/-- C1: the name-similarity override never returns FAIL.  At the failing
input (final score 75+, OCR name "AAAA" vs registry name "ZZZZ",
similarity 0 < 0.85) `make_decision` returns REVIEW, because the
`name_sim < 0.90` branch fires first and the `elif name_sim < 0.85` FAIL
branch is unreachable. -/
theorem C1_make_decision_low_name_sim :
    calculate_similarity c1_ocr_data.company_name c1_ch_data.company_name = 0 ∧
    make_decision 80 (some c1_ocr_data) (some c1_ch_data) = Decision.REVIEW := by
  have hM : totalMatched ("AAAA".data) ("ZZZZ".data) = 0 := by decide
  have hl1 : ("AAAA".data).length = 4 := by decide
  have hl2 : ("ZZZZ".data).length = 4 := by decide
  have hsim : calculate_similarity (some ("AAAA".data)) (some ("ZZZZ".data)) = 0 := by
    rw [calculate_similarity_stable (by decide) (by decide) (by decide) (by decide),
      if_neg (by decide), ratioVal_concrete hM hl1 hl2 (by norm_num)]
    norm_num
  have hsim' : calculate_similarity c1_ocr_data.company_name c1_ch_data.company_name = 0 := hsim
  refine ⟨hsim', ?_⟩
  apply make_decision_low_sim
  · decide
  · decide
  · rw [hsim']
    norm_num

/-- C2: `ScoringService` defines no `process_vat_scoring` and no
`process_director_scoring`; the scoring calls of the VAT and director
pipelines therefore raise `AttributeError` instead of returning. -/
theorem C2_pipeline_scoring_attribute_error :
    vat_pipeline_scoring_call = Except.error ("AttributeError") ∧
    director_pipeline_scoring_call = Except.error ("AttributeError") := by
  constructor <;> rfl

theorem c8_eval :
    c8_pdf_meta = (true, 85) ∧
    forensic_penalty c8_checks = 12 ∧ forensic_score c8_checks = 20 := by
  have d1 : (listContains (pyLower ([] : List Char)) ("photoshop".data) ||
      listContains (pyLower ("Adobe Photoshop".data)) ("photoshop".data)) = true := by decide
  have d2 : (listContains (pyLower ([] : List Char)) ("gimp".data) ||
      listContains (pyLower ("Adobe Photoshop".data)) ("gimp".data)) = false := by decide
  have d3 : (listContains (pyLower ([] : List Char)) ("paint".data) ||
      listContains (pyLower ("Adobe Photoshop".data)) ("paint".data)) = false := by decide
  have d4 : (listContains (pyLower ([] : List Char)) ("paint.net".data) ||
      listContains (pyLower ("Adobe Photoshop".data)) ("paint.net".data)) = false := by decide
  have d5 : (listContains (pyLower ([] : List Char)) ("coreldraw".data) ||
      listContains (pyLower ("Adobe Photoshop".data)) ("coreldraw".data)) = false := by decide
  have d6 : (listContains (pyLower ([] : List Char)) ("illustrator".data) ||
      listContains (pyLower ("Adobe Photoshop".data)) ("illustrator".data)) = false := by decide
  have d7 : (listContains (pyLower ([] : List Char)) ("inkscape".data) ||
      listContains (pyLower ("Adobe Photoshop".data)) ("inkscape".data)) = false := by decide
  have d8 : (listContains (pyLower ([] : List Char)) ("canva".data) ||
      listContains (pyLower ("Adobe Photoshop".data)) ("canva".data)) = false := by decide
  have d9 : (listContains (pyLower ([] : List Char)) ("figma".data) ||
      listContains (pyLower ("Adobe Photoshop".data)) ("figma".data)) = false := by decide
  have d10 : (listContains (pyLower ([] : List Char)) ("sketch".data) ||
      listContains (pyLower ("Adobe Photoshop".data)) ("sketch".data)) = false := by decide
  have hmeta : c8_pdf_meta = (true, 85) := by
    simp only [c8_pdf_meta, analyze_pdf_metadata, suspicious_software,
      List.foldl_cons, List.foldl_nil, Option.getD_some, Option.getD_none]
    norm_num [d1, d2, d3, d4, d5, d6, d7, d8, d9, d10, truthy]
  have h12 : forensic_penalty c8_checks = 12 := by
    have hc : c8_checks = ⟨80, true, 75, false, 75, true, 85,
        false, 100, false, 100, false, 100⟩ := by
      rw [c8_checks, hmeta]
    rw [hc]
    norm_num [forensic_penalty, forensic_penalty_raw]
  refine ⟨hmeta, h12, ?_⟩
  rw [forensic_score, h12]
  norm_num

/-- C8 counterexample: in the saturation scenario the forensic penalty is
not 14. -/
theorem C8_counterexample : ¬ forensic_penalty c8_checks = 14 := by
  rw [c8_eval.2.1]
  norm_num

/-- C8 (amended): in the saturation scenario the PDF-metadata analysis
scores 85 (one editor flag, −15) so its +2 penalty (requiring score < 70)
does not apply: the penalty is 5 + 7 = 12 and the forensic score is 20. -/
theorem C8_forensic_scenario :
    c8_pdf_meta = (true, 85) ∧
    forensic_penalty c8_checks = 12 ∧ forensic_score c8_checks = 20 :=
  c8_eval

/-- C9 counterexample: with the file absent, `extract_text_from_pdf`
returns `("", 0.0)` — it does not fail with `ExtractionError{NotFound}`. -/
theorem C9_counterexample :
    c9_env.fileSizeMB = none ∧
    extract_text_from_pdf c9_env = Except.ok ("", 0) := by
  constructor
  · rfl
  · rfl

/-- C9 (amended): `extract_text_from_pdf` never raises an extraction
error; when the input file does not exist the caught `FileNotFoundError`
degrades the result to `("", 0.0)` (as it also does on OCR port hard
failure). -/
theorem C9_extraction_degrades (env : OcrEnv) :
    (∀ e : ExtractionError, extract_text_from_pdf env ≠ Except.error e) ∧
    (env.clientAvailable = true → env.fileSizeMB = none →
      extract_text_from_pdf env = Except.ok ("", 0)) := by
  rcases env with ⟨ca, fs, sc, s3, ac⟩
  constructor
  · intro e
    unfold extract_text_from_pdf extract_text_async_branch
    cases fs <;> cases sc <;> cases s3 <;> cases ac <;>
      (repeat' split) <;> simp
  · intro hca hfs
    simp only at hca hfs
    subst hca
    subst hfs
    simp [extract_text_from_pdf]

/-- C9 witness: at the missing-file environment the result is `("", 0.0)`
and in particular not `ExtractionError.notFound`. -/
theorem C9_witness :
    extract_text_from_pdf c9_env ≠ Except.error ExtractionError.notFound ∧
    extract_text_from_pdf c9_env = Except.ok ("", 0) :=
  ⟨(C9_extraction_degrades c9_env).1 ExtractionError.notFound,
   (C9_extraction_degrades c9_env).2 rfl rfl⟩

/-- C3 counterexample: in a successful run of
`process_document_verification` no event with percent 15 (`pipeline_init`)
and none with percent 30 (`field_parse_start`) is ever emitted, so neither
is emitted exactly once. -/
theorem C3_counterexample :
    ((process_document_verification run_env (some pending_doc)).2.countP
        (fun e => e.2 = 15)) = 0 ∧
    ((process_document_verification run_env (some pending_doc)).2.countP
        (fun e => e.2 = 30)) = 0 := by
  decide

/-- C3 (amended): a successful run emits exactly the ten events
5 initializing, 10 file_validation, 20 ocr_extraction, 40 ocr_complete,
50 forensic_analysis, 60 forensic_complete, 70 companies_house_lookup,
80 companies_house_complete-or-skipped, 90 score_calculation,
100 complete, in that order, with strictly increasing percents. -/
theorem C3_progress_schedule (env : RunnerEnv) (doc : DocState)
    (hf : env.fileExists = true) :
    ((process_document_verification env (some doc)).2.map Prod.snd =
      [5, 10, 20, 40, 50, 60, 70, 80, 90, 100]) ∧
    List.Chain' (· < ·)
      ((process_document_verification env (some doc)).2.map Prod.snd) ∧
    ((process_document_verification env (some doc)).2.map Prod.fst =
        [StepName.initializing, StepName.file_validation, StepName.ocr_extraction,
         StepName.ocr_complete, StepName.forensic_analysis,
         StepName.forensic_complete, StepName.companies_house_lookup,
         StepName.companies_house_complete, StepName.score_calculation,
         StepName.complete] ∨
     (process_document_verification env (some doc)).2.map Prod.fst =
        [StepName.initializing, StepName.file_validation, StepName.ocr_extraction,
         StepName.ocr_complete, StepName.forensic_analysis,
         StepName.forensic_complete, StepName.companies_house_lookup,
         StepName.companies_house_skipped, StepName.score_calculation,
         StepName.complete]) := by
  by_cases hc : (env.ocrCompanyNumber <|> env.merchantCompanyNumber).isSome
  · refine ⟨?_, ?_, Or.inl ?_⟩ <;>
      simp [process_document_verification, hf, hc]
  · refine ⟨?_, ?_, Or.inr ?_⟩ <;>
      simp [process_document_verification, hf, hc]

/-- C3 witness: the percent schedule of the concrete successful run. -/
theorem C3_witness :
    (process_document_verification run_env (some pending_doc)).2.map Prod.snd =
      [5, 10, 20, 40, 50, 60, 70, 80, 90, 100] :=
  (C3_progress_schedule run_env pending_doc rfl).1

/-- C4 counterexample: invoking the Process endpoint on a job in the
terminal `review` state is not a no-op — the job is reprocessed, its
status changes and new progress events are emitted. -/
theorem C4_counterexample :
    review_doc.status = Status.review ∧
    (process_verification review_doc run_env).1.status ≠ Status.review ∧
    (process_verification review_doc run_env).2 ≠ [] := by
  decide

/-- C4 (amended): the endpoint is a no-op exactly for the `passed` and
`failed` terminal states: the document is returned unchanged and no
progress events are emitted. -/
theorem C4_terminal_noop (doc : DocState) (env : RunnerEnv)
    (h : doc.status = Status.passed ∨ doc.status = Status.failed) :
    process_verification doc env = (doc, []) := by
  rcases h with h | h <;> simp [process_verification, h]

/-- C4 witness: a passed job is returned unchanged with no events. -/
theorem C4_witness :
    process_verification ⟨Status.passed, some Decision.PASS⟩ run_env =
      (⟨Status.passed, some Decision.PASS⟩, []) :=
  C4_terminal_noop ⟨Status.passed, some Decision.PASS⟩ run_env (Or.inl rfl)

/-! ## Progress-service lemmas -/

theorem unsubscribe_progressData (s : ProgressState) (document_id : String)
    (q : Nat) : (unsubscribe s document_id q).progressData = s.progressData := by
  unfold unsubscribe
  rcases s.connections.lookup document_id with _ | qs
  · rfl
  · dsimp only
    split <;> rfl

theorem lookup_dictSet {α : Type} :
    ∀ (l : List (String × α)) (k : String) (v : α),
      (dictSet l k v).lookup k = some v
  | [], k, v => by simp [dictSet, List.lookup]
  | (k', v') :: t, k, v => by
    by_cases h : k' = k
    · simp [dictSet, h, List.lookup]
    · simp only [dictSet, if_neg h, List.lookup]
      have hbeq : (k == k') = false := by
        simp [beq_iff_eq]
        exact fun he => h he.symm
      simp [hbeq, lookup_dictSet t k v]

theorem lookup_eq_none_of_not_mem {α : Type} :
    ∀ (l : List (String × α)) (k : String), k ∉ l.map Prod.fst →
      l.lookup k = none
  | [], _, _ => rfl
  | (k', v') :: t, k, h => by
    simp only [List.map_cons, List.mem_cons] at h
    push_neg at h
    have hbeq : (k == k') = false := by
      simp [beq_iff_eq]
      exact h.1
    simp only [List.lookup, hbeq]
    exact lookup_eq_none_of_not_mem t k h.2

theorem lookup_dictDel {α : Type} :
    ∀ (l : List (String × α)) (k : String), (l.map Prod.fst).Nodup →
      (dictDel l k).lookup k = none
  | [], _, _ => rfl
  | (k', v') :: t, k, h => by
    simp only [List.map_cons, List.nodup_cons] at h
    by_cases he : k' = k
    · simp only [dictDel, if_pos he]
      apply lookup_eq_none_of_not_mem
      rw [← he]
      exact h.1
    · simp only [dictDel, if_neg he, List.lookup]
      have hbeq : (k == k') = false := by
        simp [beq_iff_eq]
        exact fun hx => he hx.symm
      simp only [hbeq]
      exact lookup_dictDel t k h.2

/-- C10: `unsubscribe` modifies only the subscriber registry — the stored
latest event survives the last unsubscribe and `get_progress` still
returns it; only `clear_progress` removes it. -/
theorem C10_unsubscribe_frame (s : ProgressState) (document_id : String)
    (q : Nat) (d : ProgressData) (hN : ProgressKeysDistinct s) :
    ((unsubscribe s document_id q).progressData = s.progressData) ∧
    (get_progress
        (unsubscribe (update_progress s document_id d).1 document_id q)
        document_id = some d) ∧
    (get_progress (clear_progress s document_id) document_id = none) := by
  refine ⟨unsubscribe_progressData s document_id q, ?_, ?_⟩
  · rw [get_progress, unsubscribe_progressData]
    exact lookup_dictSet s.progressData document_id d
  · rw [get_progress]
    exact lookup_dictDel s.progressData document_id hN

/-- C10 witness: with one subscriber and a published terminal event, the
event survives the unsubscribe and is gone after `clear_progress`. -/
theorem C10_witness :
    ProgressKeysDistinct pstate0 ∧
    get_progress (unsubscribe (update_progress pstate0 ("doc1") pdata0).1
      ("doc1") 1) ("doc1") = some pdata0 ∧
    get_progress (clear_progress pstate0 ("doc1")) ("doc1") = none :=
  ⟨by simp [ProgressKeysDistinct, pstate0],
   (C10_unsubscribe_frame pstate0 ("doc1") 1 pdata0
      (by simp [ProgressKeysDistinct, pstate0])).2.1,
   (C10_unsubscribe_frame pstate0 ("doc1") 1 pdata0
      (by simp [ProgressKeysDistinct, pstate0])).2.2⟩
